import Mathlib

/-!
Shallow embedding of the Calrio Digital Protection core
(src/app/services/protection_engine.py and src/app/api/protection.py).

Text content is modelled as `List Char`; scores are exact rationals `ℚ`
(the Python code uses IEEE floats; every claim checked here is insensitive
to the rounding of sums of multiples of 1/10, so the rational model is the
faithful idealisation).  The regex patterns used by the engine fall into a
small fragment: literal substrings joined by `.*`, anchored literal
patterns (`^...$`, `^...` under `re.match`), and two explicit
find-all scans (URLs and phone digit runs), which are modelled directly.
-/

namespace Calrio

/-- Python's binary `min` on scores (`min(x, y)` keeps `x` on ties). -/
def pymin (a b : ℚ) : ℚ := if a ≤ b then a else b

/-! ### Regex-fragment matcher

Every pattern in `threat_patterns`, `urgency_patterns` and
`suspicious_url_patterns` is of the form `lit₁.*lit₂.*…`, where the
literals contain no newline and no metacharacters.  `re.search` with such
a pattern succeeds iff some maximal newline-free segment of the text
contains the literals in order (Python `.` does not match `\n`).
`firstMatchEnd?` returns the suffix after the first occurrence of the
needle; matching each literal at its first occurrence is satisfiability-
equivalent to the backtracking search `re.search` performs. -/

/-- Suffix of `hay` after the first occurrence of `needle`
(`none` when `needle` does not occur). -/
def firstMatchEnd? (needle : List Char) : List Char → Option (List Char)
  | [] => if needle.isEmpty then some [] else none
  | c :: rest =>
      if needle.isPrefixOf (c :: rest) then some ((c :: rest).drop needle.length)
      else firstMatchEnd? needle rest

/-- The literals of a `lit₁.*lit₂.*…` pattern occur in order in `s`. -/
def matchParts : List (List Char) → List Char → Bool
  | [], _ => true
  | p :: ps, s =>
      match firstMatchEnd? p s with
      | none => false
      | some rest => matchParts ps rest

/-- Python's substring test `needle in hay`. -/
def containsSeq (needle hay : List Char) : Bool :=
  (firstMatchEnd? needle hay).isSome

/-- The part of `s` strictly before the first occurrence of `sep`
(all of `s` when `sep` does not occur) — `s.split(sep)[0]`. -/
def chunkBefore (sep : List Char) : List Char → List Char
  | [] => []
  | c :: rest =>
      if sep.isPrefixOf (c :: rest) then [] else c :: chunkBefore sep rest

/-- Split on a non-empty separator sequence, Python `str.split(sep)` style.
The fuel argument strictly exceeds any possible number of splits, so the
fuel-out branch is never taken for non-empty `sep`. -/
def splitOnSeqAux (sep : List Char) : Nat → List Char → List (List Char)
  | 0, s => [s]
  | Nat.succ n, s =>
      match firstMatchEnd? sep s with
      | none => [s]
      | some rest => chunkBefore sep s :: splitOnSeqAux sep n rest

/-- Python `s.split(sep)` for a non-empty separator. -/
def splitOnSeq (sep s : List Char) : List (List Char) :=
  splitOnSeqAux sep (s.length + 1) s

/-- Python `s.split(c)` for a single-character separator. -/
def splitOnChar (sep : Char) : List Char → List (List Char)
  | [] => [[]]
  | c :: rest =>
      if c == sep then [] :: splitOnChar sep rest
      else
        match splitOnChar sep rest with
        | [] => [[c]]
        | seg :: segs => (c :: seg) :: segs

/-- Split a regex of the shape `lit₁.*lit₂.*…` into its literal parts. -/
def regexParts (pat : String) : List (List Char) :=
  splitOnSeq ".*".data pat.data

/-- Model of `re.search(pat, s)` for the `lit₁.*lit₂.*…` fragment
(a match must live inside one newline-free segment, since `.` does not
match a newline). -/
def reSearch (pat : String) (s : List Char) : Bool :=
  (splitOnChar '\n' s).any (matchParts (regexParts pat))

/-! ### Pattern catalog (engine `__init__`, protection_engine.py:14-59) -/

/-- The `phishing` pattern list of `self.threat_patterns`. -/
def phishing_patterns : List String :=
  ["urgent.*account.*suspend", "verify.*identity.*immediately",
   "click.*link.*expire", "bank.*account.*frozen",
   "security.*alert.*verify", "suspended.*account.*verify",
   "confirm.*identity.*24.*hours"]

/-- The `fraud` pattern list of `self.threat_patterns`. -/
def fraud_patterns : List String :=
  ["congratulations.*won.*prize", "lottery.*winner.*claim",
   "send.*money.*emergency", "inheritance.*million.*dollars",
   "prince.*nigeria.*money", "tax.*refund.*claim.*now",
   "covid.*relief.*fund"]

/-- The `spam` pattern list of `self.threat_patterns`. -/
def spam_patterns : List String :=
  ["buy.*now.*limited.*time", "free.*gift.*no.*cost",
   "earn.*money.*home", "lose.*weight.*fast",
   "miracle.*cure.*disease", "make.*money.*online"]

/-- The `malware` pattern list of `self.threat_patterns`. -/
def malware_patterns : List String :=
  ["download.*app.*win", "install.*software.*free",
   "update.*flash.*player", "virus.*detected.*clean"]

/-- `self.threat_patterns`: category → pattern list. -/
def threat_patterns : List (String × List String) :=
  [("phishing", phishing_patterns), ("fraud", fraud_patterns),
   ("spam", spam_patterns), ("malware", malware_patterns)]

/-- `self.suspicious_domains`. -/
def suspicious_domains : List String :=
  ["bit.ly", "tinyurl.com", "t.co", "goo.gl", "ow.ly", "is.gd", "buff.ly"]

/-- `self.spam_phone_patterns` are the anchored regexes
`^\+1234567890$` … ; `re.match` with such a pattern is equality with the
enclosed literal. -/
def spam_phone_patterns : List (List Char) :=
  ["+1234567890".data, "+9876543210".data, "0000000000".data, "1111111111".data]

/-- Urgency literals searched by `_analyze_text` (protection_engine.py:167-170). -/
def urgency_patterns : List String :=
  ["urgent", "immediate", "expire", "limited time",
   "act now", "hurry", "deadline", "last chance"]

/-- `premium_patterns` of `_analyze_phone` are `^\+1900`, `^\+1976`,
`^\+44871` under `re.match`, i.e. prefix tests with these literals. -/
def premium_patterns : List (List Char) :=
  ["+1900".data, "+1976".data, "+44871".data]

/-- Suspicious keyword patterns of `_analyze_url` (protection_engine.py:247-250). -/
def suspicious_url_patterns : List String :=
  ["secure.*bank", "verify.*account", "update.*payment",
   "confirm.*identity", "suspended.*account"]

/-! ### Analysis results -/

/-- A value in an analysis metadata dictionary. -/
inductive MetaVal where
  | s (v : String)
  | n (v : Nat)
  | q (v : ℚ)
  | l (v : List String)
deriving DecidableEq, Repr

/-- A metadata dictionary (ordered key/value pairs). -/
abbrev Metadata := List (String × MetaVal)

/-- The dictionary shape every scorer returns
(`threat_level`, `confidence_score`, `action_taken`, `categories`,
`message`, `metadata`). -/
structure AnalysisResult where
  threat_level : String
  confidence_score : ℚ
  action_taken : String
  categories : List String
  message : String
  metadata : Metadata
deriving DecidableEq, Repr

/-! ### Phone scorer (`_analyze_phone`, protection_engine.py:298-356) -/

/-- `re.sub(r'[^\d+]', '', phone)`: keep decimal digits and every `+`. -/
def cleanPhoneOf (phone : List Char) : List Char :=
  phone.filter (fun c => c.isDigit || c == '+')

/-- The pre-clamp score accumulated by `_analyze_phone`: 0.8 per matching
spam pattern, 0.4 for a short normalized number, 0.6 for at most two
distinct digit characters, 0.5 per matching premium-rate prefix. -/
def phoneRawScore (clean_phone : List Char) : ℚ :=
  (8/10) * (spam_phone_patterns.countP (fun p => p == clean_phone))
    + (if clean_phone.length < 10 then 4/10 else 0)
    + (if (clean_phone.filter (fun c => !(c == '+'))).dedup.length ≤ 2 then 6/10 else 0)
    + (5/10) * (premium_patterns.countP (fun p => p.isPrefixOf clean_phone))

/-- Model of `_analyze_phone`. -/
def analyze_phone (phone : List Char) (app_name : String) : AnalysisResult :=
  let clean_phone := cleanPhoneOf phone
  let spamCount := spam_phone_patterns.countP (fun p => p == clean_phone)
  let premiumCount := premium_patterns.countP (fun p => p.isPrefixOf clean_phone)
  let threat_score : ℚ := pymin (phoneRawScore clean_phone) 1
  let lvl :=
    if threat_score ≥ 8/10 then ("blocked", "blocked", "Spam/fraud number blocked")
    else if threat_score ≥ 4/10 then ("suspicious", "flagged", "Suspicious number flagged")
    else ("safe", "allowed", "Number appears safe")
  { threat_level := lvl.1
    confidence_score := threat_score
    action_taken := lvl.2.1
    categories := if threat_score > 4/10 then ["spam_call"] else []
    message := lvl.2.2 ++ " for " ++ app_name
    metadata :=
      [("risk_factors", .l (List.replicate spamCount "Known spam number pattern" ++
          (if clean_phone.length < 10 then ["Invalid phone number format"] else []) ++
          (if (clean_phone.filter (fun c => !(c == '+'))).dedup.length ≤ 2 then
            ["Suspicious repeated digits"] else []) ++
          List.replicate premiumCount "Premium rate number detected")),
       ("clean_phone", .s (String.mk clean_phone)),
       ("phone_length", .n clean_phone.length)] }

/-! ### URL and phone extraction (`re.findall`, protection_engine.py:180-191)

The URL pattern is `http[s]?://(?:[a-zA-Z]|[0-9]|[$-_@.&+]|[!*\\(\\),]|(?:%[0-9a-fA-F][0-9a-fA-F]))+`.
Its body is a one-or-more repetition of single-character alternatives
(the `%HH` alternative is subsumed for membership because `%` already lies
in the range `$-_`), so a match is `http://` or `https://` followed by a
maximal non-empty run of characters from the union class. -/

/-- Membership in the URL pattern's character class:
`[a-zA-Z] ∪ [0-9] ∪ [$-_@.&+] ∪ [!*\(),]` — the range `$-_` (0x24–0x5F)
already covers `A-Z`, `0-9`, `@.&+*(),\`, leaving `a-z` and `!`. -/
def isUrlChar (c : Char) : Bool :=
  (0x24 ≤ c.toNat && c.toNat ≤ 0x5F) || ('a' ≤ c && c ≤ 'z') || c == '!'

/-- Try to match the URL pattern at the head of `s`; on success return the
matched characters and the remainder (greedy `[s]?` then greedy `+`). -/
def urlAt (s : List Char) : Option (List Char × List Char) :=
  let tryWith : List Char → Option (List Char × List Char) := fun pre =>
    if pre.isPrefixOf s then
      let rest := s.drop pre.length
      let run := rest.takeWhile isUrlChar
      if run.isEmpty then none else some (pre ++ run, rest.drop run.length)
    else none
  match tryWith "https://".data with
  | some r => some r
  | none => tryWith "http://".data

/-- `re.findall(url_pattern, s)`: scan left to right, emit each leftmost
match, resume after its end.  Fuel exceeds the scan length, so the
fuel-out branch is never reached. -/
def findUrlsAux : Nat → List Char → List (List Char)
  | 0, _ => []
  | _ + 1, [] => []
  | n + 1, c :: rest =>
      match urlAt (c :: rest) with
      | some (u, after) => u :: findUrlsAux n after
      | none => findUrlsAux n rest

/-- All URL-pattern matches in `s`, in order. -/
def findUrls (s : List Char) : List (List Char) :=
  findUrlsAux s.length s

/-- Try to match the phone pattern `[\+]?[1-9]?[0-9]{7,15}` at the head of
`s`, with the backtracking Python's engine performs: a greedy optional
`+`, a greedy optional leading `1-9` (dropped again when fewer than 7
digits would remain), then 7–15 further digits, greedily. -/
def phoneAt (s : List Char) : Option (List Char × List Char) :=
  let plus : List Char := if s.headD ' ' == '+' then ['+'] else []
  let s1 := s.drop plus.length
  let run := s1.takeWhile Char.isDigit
  let n := run.length
  let takeN : Nat :=
    if ('1' ≤ s1.headD ' ' && s1.headD ' ' ≤ '9') && n ≥ 8 then min n 16
    else if n ≥ 7 then min n 15
    else 0
  if takeN = 0 then none
  else some (plus ++ run.take takeN, s1.drop takeN)

/-- `re.findall(phone_pattern, s)`. -/
def findPhonesAux : Nat → List Char → List (List Char)
  | 0, _ => []
  | _ + 1, [] => []
  | n + 1, c :: rest =>
      match phoneAt (c :: rest) with
      | some (p, after) => p :: findPhonesAux n after
      | none => findPhonesAux n rest

/-- All phone-pattern matches in `s`, in order. -/
def findPhones (s : List Char) : List (List Char) :=
  findPhonesAux s.length s

/-! ### In-text helper scorers (protection_engine.py:440-454) -/

/-- `_analyze_url_in_text`: 0.3 per suspicious domain occurring in the
lowercased URL, capped at 0.5. -/
def analyze_url_in_text (url : List Char) : ℚ :=
  let lower := url.map Char.toLower
  pymin ((3/10) * (suspicious_domains.countP (fun d => containsSeq d.data lower))) (5/10)

/-- `_analyze_phone_in_text`: 0.4 when the cleaned number equals a known
spam pattern, else 0. -/
def analyze_phone_in_text (phone : List Char) : ℚ :=
  if spam_phone_patterns.any (fun p => p == cleanPhoneOf phone) then 4/10 else 0

/-! ### Text scorer (`_analyze_text`, protection_engine.py:145-227) -/

/-- Number of patterns of one category matching the (lowercased) text. -/
def categoryMatchCount (pats : List String) (text_lower : List Char) : Nat :=
  pats.countP (fun p => reSearch p text_lower)

/-- The category subtotal: `0.3` per matching pattern. -/
def categoryScore (pats : List String) (text_lower : List Char) : ℚ :=
  (3/10) * categoryMatchCount pats text_lower

/-- What one category adds to the running confidence: nothing when no
pattern matched, otherwise the subtotal capped at `0.8`. -/
def categoryContribution (pats : List String) (text_lower : List Char) : ℚ :=
  if categoryScore pats text_lower > 0 then pymin (categoryScore pats text_lower) (8/10)
  else 0

/-- Number of urgency keywords found in the lowercased text. -/
def urgencyCount (text_lower : List Char) : Nat :=
  urgency_patterns.countP (fun p => reSearch p text_lower)

/-- The pre-clamp confidence accumulated by `_analyze_text`. -/
def textRawScore (text : List Char) : ℚ :=
  let text_lower := text.map Char.toLower
  (threat_patterns.map (fun cp => categoryContribution cp.2 text_lower)).sum
    + pymin ((1/10) * urgencyCount text_lower) (3/10)
    + ((findUrls text).map analyze_url_in_text).sum
    + ((findPhones text).map analyze_phone_in_text).sum

/-- Model of `_analyze_text`. -/
def analyze_text (text : List Char) (app_name : String) : AnalysisResult :=
  let text_lower := text.map Char.toLower
  let detected_threats :=
    (threat_patterns.filter (fun cp => categoryScore cp.2 text_lower > 0)).map (·.1)
  let urls := findUrls text
  let phones := findPhones text
  let threat_score := pymin (textRawScore text) 1
  let lvl :=
    if threat_score ≥ 9/10 then
      ("blocked", "blocked", "High-risk content detected and blocked")
    else if threat_score ≥ 6/10 then
      ("suspicious", "flagged", "Suspicious content flagged for review")
    else ("safe", "allowed", "Content appears safe")
  { threat_level := lvl.1
    confidence_score := threat_score
    action_taken := lvl.2.1
    categories := detected_threats
    message := lvl.2.2 ++ " for " ++ app_name
    metadata :=
      [("risk_factors", .l
          ((threat_patterns.flatMap (fun cp =>
              List.replicate (categoryMatchCount cp.2 text_lower)
                ("Detected " ++ cp.1 ++ " pattern")))
            ++ List.replicate (urgencyCount text_lower) "Urgency language detected"
            ++ (urls.filter (fun u => analyze_url_in_text u > 3/10)).map
                (fun _ => "Suspicious URL detected")
            ++ (phones.filter (fun p => analyze_phone_in_text p > 3/10)).map
                (fun _ => "Suspicious phone number"))),
       ("urls_found", .n urls.length),
       ("phones_found", .n phones.length),
       ("text_length", .n text.length)] }

/-- Model of `_analyze_email` (protection_engine.py:358-363): text analysis
with an `email_threat` category appended when the result is not safe. -/
def analyze_email (email_content : List Char) (app_name : String) : AnalysisResult :=
  let result := analyze_text email_content app_name
  if result.threat_level ≠ "safe" then
    { result with categories := result.categories ++ ["email_threat"] }
  else result

/-! ### URL scorer (`_analyze_url`, protection_engine.py:229-296) -/

/-- One `[0-9]{1,3}\.` group of the bare-IP pattern, `k+1` groups left
before the final `[0-9]{1,3}` (which only needs one digit, as a search
imposes no constraint after it); the choice of 1–3 digits per group is
existential, matching the engine's backtracking. -/
def ipGroups : Nat → List Char → Bool
  | 0, s => (s.headD ' ').isDigit
  | k + 1, s =>
      [1, 2, 3].any (fun g =>
        ((s.take g).length == g && (s.take g).all Char.isDigit &&
          ((s.drop g).headD ' ' == '.')) && ipGroups k (s.drop (g + 1)))

/-- Scan for `re.search(r'http[s]?://(?:[0-9]{1,3}\.){3}[0-9]{1,3}', s)`. -/
def ipSearchAux : Nat → List Char → Bool
  | 0, _ => false
  | _ + 1, [] => false
  | n + 1, c :: rest =>
      ("http://".data.isPrefixOf (c :: rest) && ipGroups 3 ((c :: rest).drop 7))
        || ("https://".data.isPrefixOf (c :: rest) && ipGroups 3 ((c :: rest).drop 8))
        || ipSearchAux n rest

/-- `re.search` of the bare-IP-host pattern anywhere in `s`. -/
def reIpSearch (s : List Char) : Bool :=
  ipSearchAux s.length s

/-- The host part used for the subdomain count:
`url.split('//')[1].split('/')[0] if '//' in url else url.split('/')[0]`. -/
def domainPartsOf (url : List Char) : List Char :=
  if containsSeq "//".data url then
    ((splitOnSeq "//".data url).getD 1 []).takeWhile (fun c => !(c == '/'))
  else url.takeWhile (fun c => !(c == '/'))

/-- The pre-clamp score accumulated by `_analyze_url`. -/
def urlRawScore (url : List Char) : ℚ :=
  let lower := url.map Char.toLower
  (4/10) * (suspicious_domains.countP (fun d => containsSeq d.data lower))
    + (if reIpSearch url then 5/10 else 0)
    + (3/10) * (suspicious_url_patterns.countP (fun p => reSearch p lower))
    + (if url.length > 200 then 2/10 else 0)
    + (if (domainPartsOf url).countP (fun c => c == '.') > 3 then 3/10 else 0)

/-- Model of `_analyze_url`. -/
def analyze_url (url : List Char) (app_name : String) : AnalysisResult :=
  let lower := url.map Char.toLower
  let ipHit := reIpSearch url
  let longUrl := url.length > 200
  let subdomain_count := (domainPartsOf url).countP (fun c => c == '.')
  let manySubs := subdomain_count > 3
  let threat_score := pymin (urlRawScore url) 1
  let lvl :=
    if threat_score ≥ 8/10 then ("blocked", "blocked", "Malicious URL blocked")
    else if threat_score ≥ 5/10 then ("suspicious", "flagged", "Suspicious URL flagged")
    else ("safe", "allowed", "URL appears safe")
  { threat_level := lvl.1
    confidence_score := threat_score
    action_taken := lvl.2.1
    categories := if threat_score > 5/10 then ["malicious_url"] else []
    message := lvl.2.2 ++ " for " ++ app_name
    metadata :=
      [("risk_factors", .l
          (((suspicious_domains.filter (fun d => containsSeq d.data lower)).map
              (fun d => "URL shortener detected: " ++ d))
            ++ (if ipHit then ["Direct IP address used instead of domain"] else [])
            ++ ((suspicious_url_patterns.filter (fun p => reSearch p lower)).map
                (fun p => "Suspicious URL pattern: " ++ p))
            ++ (if longUrl then ["Unusually long URL"] else [])
            ++ (if manySubs then ["Multiple subdomains detected"] else []))),
       ("url_length", .n url.length),
       ("subdomain_count", .n subdomain_count)] }

/-! ### File scorers (protection_engine.py:365-438)

`md5` hex digests are computed only for identification metadata; the hash
function is an external library routine and is passed as a parameter. -/

/-- Model of `_analyze_image`. -/
def analyze_image (md5 : List Nat → String) (image_data : List Nat)
    (app_name : String) : AnalysisResult :=
  let meta : Metadata :=
    [("file_size", .n image_data.length), ("file_hash", .s (md5 image_data))]
  if image_data.length > 5 * 1024 * 1024 then
    { threat_level := "suspicious", confidence_score := 3/10,
      action_taken := "flagged", categories := ["large_file"],
      message := "Large image file flagged for " ++ app_name, metadata := meta }
  else
    { threat_level := "safe", confidence_score := 0, action_taken := "allowed",
      categories := [],
      message := "Image appears safe for " ++ app_name, metadata := meta }

/-- Model of `_analyze_audio`. -/
def analyze_audio (md5 : List Nat → String) (audio_data : List Nat)
    (app_name : String) : AnalysisResult :=
  { threat_level := "safe", confidence_score := 0, action_taken := "allowed",
    categories := [],
    message := "Audio file appears safe for " ++ app_name,
    metadata := [("file_size", .n audio_data.length),
                 ("file_hash", .s (md5 audio_data))] }

/-- Model of `_analyze_video`. -/
def analyze_video (md5 : List Nat → String) (video_data : List Nat)
    (app_name : String) : AnalysisResult :=
  { threat_level := "safe", confidence_score := 0, action_taken := "allowed",
    categories := [],
    message := "Video file appears safe for " ++ app_name,
    metadata := [("file_size", .n video_data.length),
                 ("file_hash", .s (md5 video_data))] }

/-- Model of `_analyze_generic_file`. -/
def analyze_generic_file (md5 : List Nat → String) (file_data : List Nat)
    (content_type app_name : String) : AnalysisResult :=
  if content_type = "application/x-executable"
      ∨ content_type = "application/x-msdownload" then
    { threat_level := "blocked", confidence_score := 9/10,
      action_taken := "blocked", categories := ["executable_file"],
      message := "Executable file blocked for " ++ app_name,
      metadata := [("file_size", .n file_data.length),
                   ("file_hash", .s (md5 file_data))] }
  else
    { threat_level := "safe", confidence_score := 0, action_taken := "allowed",
      categories := [],
      message := "File appears safe for " ++ app_name,
      metadata := [("file_size", .n file_data.length),
                   ("file_hash", .s (md5 file_data)),
                   ("content_type", .s content_type)] }

/-! ### The engine entry points (protection_engine.py:90-143)

In Python the individual scorers are method calls that may raise; the
`try`/`except` in `analyze_content`/`analyze_file` converts any such
exception into the fail-open default.  The embedding therefore takes the
scorer suite as a record of `Except`-returning functions; the concrete
suite `realScorers` wraps the total functions above in `.ok`. -/

/-- The scorer methods `analyze_content`/`analyze_file` dispatch to, as
possibly-raising functions. -/
structure Scorers where
  text : List Char → String → Except String AnalysisResult
  url : List Char → String → Except String AnalysisResult
  phone : List Char → String → Except String AnalysisResult
  email : List Char → String → Except String AnalysisResult
  image : List Nat → String → Except String AnalysisResult
  audio : List Nat → String → Except String AnalysisResult
  video : List Nat → String → Except String AnalysisResult
  generic : List Nat → String → String → Except String AnalysisResult

/-- The scorers of this engine, which are total. -/
def realScorers (md5 : List Nat → String) : Scorers where
  text := fun t a => .ok (analyze_text t a)
  url := fun u a => .ok (analyze_url u a)
  phone := fun p a => .ok (analyze_phone p a)
  email := fun e a => .ok (analyze_email e a)
  image := fun d a => .ok (analyze_image md5 d a)
  audio := fun d a => .ok (analyze_audio md5 d a)
  video := fun d a => .ok (analyze_video md5 d a)
  generic := fun d ct a => .ok (analyze_generic_file md5 d ct a)

/-- The unsupported-content-type passthrough (protection_engine.py:104-112). -/
def unsupportedResult (content_type : String) : AnalysisResult :=
  { threat_level := "safe", confidence_score := 0, action_taken := "allowed",
    categories := [],
    message := "Content type '" ++ content_type ++ "' analysis not supported yet",
    metadata := [("content_type", .s content_type)] }

/-- The body of `analyze_content`'s `try` block. -/
def contentDispatch (S : Scorers) (content_type : String) (content : List Char)
    (app_name : String) : Except String AnalysisResult :=
  if content_type = "message" then S.text content app_name
  else if content_type = "url" then S.url content app_name
  else if content_type = "call" then S.phone content app_name
  else if content_type = "email" then S.email content app_name
  else .ok (unsupportedResult content_type)

/-- The fail-open default of `analyze_content` (protection_engine.py:115-122). -/
def failOpenContent (e : String) : AnalysisResult :=
  { threat_level := "safe", confidence_score := 0, action_taken := "allowed",
    categories := [],
    message := "Analysis failed, content allowed by default",
    metadata := [("error", .s e)] }

/-- Model of `ProtectionEngine.analyze_content`. -/
def engine_analyze_content (S : Scorers) (content_type : String)
    (content : List Char) (app_name : String) : AnalysisResult :=
  match contentDispatch S content_type content app_name with
  | .ok r => r
  | .error e => failOpenContent e

/-- `startswith` on the declared mime type. -/
def strStartsWith (pre s : String) : Bool :=
  pre.data.isPrefixOf s.data

/-- The body of `analyze_file`'s `try` block. -/
def fileDispatch (S : Scorers) (file_content : List Nat)
    (content_type app_name : String) : Except String AnalysisResult :=
  if strStartsWith "image/" content_type then S.image file_content app_name
  else if strStartsWith "audio/" content_type then S.audio file_content app_name
  else if strStartsWith "video/" content_type then S.video file_content app_name
  else S.generic file_content content_type app_name

/-- The fail-open default of `analyze_file` (protection_engine.py:137-143);
the Python dict carries no `categories` key, which the response schema
reads as the empty list. -/
def failOpenFile (e : String) : AnalysisResult :=
  { threat_level := "safe", confidence_score := 0, action_taken := "allowed",
    categories := [],
    message := "File analysis failed, allowed by default",
    metadata := [("error", .s e)] }

/-- Model of `ProtectionEngine.analyze_file`. -/
def engine_analyze_file (S : Scorers) (file_content : List Nat)
    (content_type app_name : String) : AnalysisResult :=
  match fileDispatch S file_content content_type app_name with
  | .ok r => r
  | .error e => failOpenFile e

/-! ### Persistence model (src/app/models, src/app/api/protection.py)

The log store and settings store are modelled as in-memory lists; times
are integer seconds (UTC), `now` is a parameter.  `scalar_one_or_none` on
a filtered select is modelled as `List.find?` over the store.  The SHA-256
content hash is an external library routine, passed as a parameter.
`threat_categories`/`metadata` are serialized as JSON text columns and
parsed back on read; the round trip is the identity for the values this
code writes, so they are stored structurally. -/

/-- A row of `app_settings` (models/user.py:23-34). -/
structure AppSettingRec where
  user_id : Nat
  app_name : String
  is_enabled : Bool
  protection_level : String
  auto_block : Bool
  notifications : Bool
deriving DecidableEq, Repr

/-- A row of `protection_logs` (models/protection.py:6-22). -/
structure LogEntry where
  user_id : Nat
  app_name : String
  content_type : String
  content_hash : String
  threat_level : String
  confidence_score : ℚ
  threat_categories : List String
  action_taken : String
  meta : Metadata
  created_at : ℤ
deriving DecidableEq, Repr

/-- The two stores the protection API reads and writes. -/
structure DB where
  settings : List AppSettingRec
  logs : List LogEntry
deriving DecidableEq, Repr

/-- The `ProtectionResponse` schema (api/protection.py:30-36). -/
structure ProtectionResponse where
  threat_level : String
  confidence_score : ℚ
  action_taken : String
  categories : List String := []
  message : String
  meta : Metadata := []
deriving DecidableEq, Repr

/-- The `AppSetting` row lookup predicate of the gate
(api/protection.py:119-127). -/
def settingFor (user : Nat) (app : String) (s : AppSettingRec) : Bool :=
  s.user_id == user && s.app_name == app

/-- The dedup-window predicate of the cache lookup (api/protection.py:141-149):
same user, same content hash, created within the last 24 hours. -/
def cacheHit (user : Nat) (h : String) (now : ℤ) (L : LogEntry) : Bool :=
  L.user_id == user && L.content_hash == h && decide (now - 24 * 3600 ≤ L.created_at)

/-- The early response when protection is not enabled (api/protection.py:130-135). -/
def gateResponse (app : String) : ProtectionResponse :=
  { threat_level := "safe", confidence_score := 0, action_taken := "allowed",
    message := "Protection not enabled for " ++ app }

/-- The response built from a cached log entry (api/protection.py:152-161). -/
def cachedResponse (app : String) (L : LogEntry) : ProtectionResponse :=
  { threat_level := L.threat_level, confidence_score := L.confidence_score,
    action_taken := L.action_taken, categories := L.threat_categories,
    message := "Cached analysis result for " ++ app, meta := L.meta }

/-- The response returned from a fresh engine result
(`ProtectionResponse(**analysis_result)`). -/
def freshResponse (r : AnalysisResult) : ProtectionResponse :=
  { threat_level := r.threat_level, confidence_score := r.confidence_score,
    action_taken := r.action_taken, categories := r.categories,
    message := r.message, meta := r.metadata }

/-- The `ProtectionLog` row persisted for a fresh analysis
(api/protection.py:172-184). -/
def freshLogEntry (user : Nat) (app content_type : String) (h : String)
    (r : AnalysisResult) (now : ℤ) : LogEntry :=
  { user_id := user, app_name := app, content_type := content_type,
    content_hash := h, threat_level := r.threat_level,
    confidence_score := r.confidence_score, threat_categories := r.categories,
    action_taken := r.action_taken, meta := r.metadata, created_at := now }

/-- Model of the `/analyze` endpoint `analyze_content`
(api/protection.py:110-188): gate on the app setting, dedup lookup over
the log store, otherwise run the engine, append a log row and answer.
`engine` is the `ProtectionEngine.analyze_content` call and `hashF` the
SHA-256 hex digest. -/
def api_analyze_content (engine : String → List Char → String → AnalysisResult)
    (hashF : List Char → String) (now : ℤ) (db : DB) (user : Nat)
    (reqType : String) (content : List Char) (app : String) :
    ProtectionResponse × DB :=
  match db.settings.find? (settingFor user app) with
  | none => (gateResponse app, db)
  | some s =>
    if !s.is_enabled then (gateResponse app, db)
    else
      let h := hashF content
      match db.logs.find? (cacheHit user h now) with
      | some L => (cachedResponse app L, db)
      | none =>
        let r := engine reqType content app
        (freshResponse r,
         { db with logs := db.logs ++ [freshLogEntry user app reqType h r now] })

/-! ### Stats endpoint (`get_protection_stats`, api/protection.py:298-399) -/

/-- The window start for a period string: `24h`/`7d`/`30d`, anything else
defaulting to 24 hours (api/protection.py:306-318). -/
def periodStart (period : String) (now : ℤ) : ℤ :=
  if period = "24h" then now - 24 * 3600
  else if period = "7d" then now - 7 * 24 * 3600
  else if period = "30d" then now - 30 * 24 * 3600
  else now - 24 * 3600

/-- The human label reported back as `period`. -/
def periodLabel (period : String) : String :=
  if period = "24h" then "24 hours"
  else if period = "7d" then "7 days"
  else if period = "30d" then "30 days"
  else "24 hours"

/-- A log row counted by the stats queries: same user, inside the window. -/
def inWindow (user : Nat) (start : ℤ) (L : LogEntry) : Bool :=
  L.user_id == user && decide (start ≤ L.created_at)

/-- The `ProtectionStatsResponse` schema (api/protection.py:47-53); the
breakdown dict maps an app name to its `(protected, blocked)` counts. -/
structure StatsResponse where
  total_protected : Nat
  threats_blocked : Nat
  suspicious_items : Nat
  apps_protected : Nat
  period : String
  breakdown : List (String × Nat × Nat)
deriving DecidableEq, Repr

/-- Model of `get_protection_stats`: the four count queries and the
group-by-app breakdown over the user's log rows in the window. -/
def get_protection_stats (now : ℤ) (db : DB) (user : Nat) (period : String) :
    StatsResponse :=
  let start := periodStart period now
  let windowLogs := db.logs.filter (inWindow user start)
  let appsSeen := (windowLogs.map (·.app_name)).dedup
  { total_protected := db.logs.countP (inWindow user start)
    threats_blocked :=
      db.logs.countP (fun L => inWindow user start L && L.threat_level == "blocked")
    suspicious_items :=
      db.logs.countP (fun L => inWindow user start L && L.threat_level == "suspicious")
    apps_protected :=
      (((db.settings.filter (fun s => s.user_id == user && s.is_enabled)).map
          (·.app_name)).dedup).length
    period := periodLabel period
    breakdown := appsSeen.map (fun a =>
      (a, (windowLogs.filter (fun L => L.app_name == a)).length,
          (windowLogs.filter (fun L => L.app_name == a && L.threat_level == "blocked")).length)) }

/-! ### App settings endpoint (`get_app_settings`, api/protection.py:401-435) -/

/-- The value shape of one entry in the `/apps` response. -/
structure AppSettingOut where
  enabled : Bool
  protection_level : String
  auto_block : Bool
  notifications : Bool
deriving DecidableEq, Repr

/-- The default entry used for apps without a stored setting
(api/protection.py:418-424). -/
def defaultAppOut : AppSettingOut :=
  { enabled := false, protection_level := "medium", auto_block := true,
    notifications := true }

/-- The entry built from a stored setting (api/protection.py:427-433). -/
def outOfSetting (s : AppSettingRec) : AppSettingOut :=
  { enabled := s.is_enabled, protection_level := s.protection_level,
    auto_block := s.auto_block, notifications := s.notifications }

/-- The five default apps. -/
def default_apps : List String :=
  ["whatsapp", "phone", "sms", "email", "telegram"]

/-- Python dict assignment `m[k] = v`: replace in place when the key
exists (insertion order preserved), otherwise append. -/
def dictSet (m : List (String × AppSettingOut)) (k : String) (v : AppSettingOut) :
    List (String × AppSettingOut) :=
  match m with
  | [] => [(k, v)]
  | (k', v') :: rest =>
      if k' == k then (k, v) :: rest else (k', v') :: dictSet rest k v

/-- Model of `get_app_settings`: defaults for the five apps, then each of
the user's stored settings written over them in order. -/
def get_app_settings (db : DB) (user : Nat) : List (String × AppSettingOut) :=
  (db.settings.filter (fun s => s.user_id == user)).foldl
    (fun m s => dictSet m s.app_name (outOfSetting s))
    (default_apps.map (fun a => (a, defaultAppOut)))

/-! ### Concrete sample data used by witnesses and counterexamples -/

/-- The scenario text of spec §8, scenario 1. -/
def c8_text : List Char :=
  "URGENT your account has been suspended, verify identity immediately http://bit.ly/x".data

/-- A scorer suite in which every scorer raises, to exercise the
fail-open boundary. -/
def boomScorers : Scorers where
  text := fun _ _ => .error "text boom"
  url := fun _ _ => .error "url boom"
  phone := fun _ _ => .error "phone boom"
  email := fun _ _ => .error "email boom"
  image := fun _ _ => .error "image boom"
  audio := fun _ _ => .error "audio boom"
  video := fun _ _ => .error "video boom"
  generic := fun _ _ _ => .error "generic boom"

/-- A sample `app_settings` row for user 1 / app `sms`. -/
def sampleSetting (enabled : Bool) : AppSettingRec :=
  { user_id := 1, app_name := "sms", is_enabled := enabled,
    protection_level := "medium", auto_block := true, notifications := true }

/-- A sample blocked log row for user 1, hash `"h"`, created at time 0. -/
def sampleEntry : LogEntry :=
  { user_id := 1, app_name := "sms", content_type := "message",
    content_hash := "h", threat_level := "blocked", confidence_score := 9/10,
    threat_categories := ["phishing"], action_taken := "blocked", meta := [],
    created_at := 0 }

/-- Store state with `sms` protection disabled but a fresh cached entry. -/
def disabledDb : DB := { settings := [sampleSetting false], logs := [sampleEntry] }

/-- Store state with `sms` protection enabled and a fresh cached entry. -/
def enabledDb : DB := { settings := [sampleSetting true], logs := [sampleEntry] }

/-- A stand-in hash function mapping everything to `"h"`. -/
def constHash : List Char → String := fun _ => "h"

/-- An arbitrary engine function for exercising the endpoint. -/
def nullEngine : String → List Char → String → AnalysisResult :=
  fun _ _ _ => unsupportedResult "none"

/-- A log row for the stats scenario (user 1, app `sms`, created at 0). -/
def smsLog (lvl act : String) (conf : ℚ) : LogEntry :=
  { user_id := 1, app_name := "sms", content_type := "message",
    content_hash := "h", threat_level := lvl, confidence_score := conf,
    threat_categories := [], action_taken := act, meta := [], created_at := 0 }

/-- Store state of spec §8, scenario 4: three `sms` entries, one blocked. -/
def statsDb : DB :=
  { settings := [sampleSetting true],
    logs := [smsLog "blocked" "blocked" (9/10), smsLog "safe" "allowed" 0,
             smsLog "safe" "allowed" 0] }

/-! ## Helper lemmas -/

theorem pymin_nonneg {a b : ℚ} (ha : 0 ≤ a) (hb : 0 ≤ b) : 0 ≤ pymin a b := by
  unfold pymin; split
  · exact ha
  · exact hb

theorem pymin_le_right (a b : ℚ) : pymin a b ≤ b := by
  unfold pymin; split
  · assumption
  · exact le_refl b

theorem categoryScore_nonneg (pats : List String) (tl : List Char) :
    0 ≤ categoryScore pats tl := by
  unfold categoryScore; positivity

theorem categoryContribution_nonneg (pats : List String) (tl : List Char) :
    0 ≤ categoryContribution pats tl := by
  unfold categoryContribution; split
  · exact pymin_nonneg (categoryScore_nonneg pats tl) (by norm_num)
  · exact le_refl 0

theorem categoryContribution_le (pats : List String) (tl : List Char) :
    categoryContribution pats tl ≤ 8/10 := by
  unfold categoryContribution; split
  · exact pymin_le_right _ _
  · norm_num

theorem analyze_url_in_text_nonneg (u : List Char) :
    0 ≤ analyze_url_in_text u :=
  pymin_nonneg (by positivity) (by norm_num)

theorem analyze_phone_in_text_nonneg (p : List Char) :
    0 ≤ analyze_phone_in_text p := by
  unfold analyze_phone_in_text; split <;> norm_num

theorem textRawScore_nonneg (t : List Char) : 0 ≤ textRawScore t := by
  unfold textRawScore
  refine add_nonneg (add_nonneg (add_nonneg ?_ ?_) ?_) ?_
  · refine List.sum_nonneg ?_
    intro x hx
    obtain ⟨cp, _, rfl⟩ := List.mem_map.mp hx
    exact categoryContribution_nonneg _ _
  · exact pymin_nonneg (by positivity) (by norm_num)
  · refine List.sum_nonneg ?_
    intro x hx
    obtain ⟨u, _, rfl⟩ := List.mem_map.mp hx
    exact analyze_url_in_text_nonneg u
  · refine List.sum_nonneg ?_
    intro x hx
    obtain ⟨p, _, rfl⟩ := List.mem_map.mp hx
    exact analyze_phone_in_text_nonneg p

theorem urlRawScore_nonneg (u : List Char) : 0 ≤ urlRawScore u := by
  unfold urlRawScore
  refine add_nonneg (add_nonneg (add_nonneg (add_nonneg ?_ ?_) ?_) ?_) ?_
  · positivity
  · split <;> norm_num
  · positivity
  · split <;> norm_num
  · split <;> norm_num

theorem phoneRawScore_nonneg (c : List Char) : 0 ≤ phoneRawScore c := by
  unfold phoneRawScore
  refine add_nonneg (add_nonneg (add_nonneg ?_ ?_) ?_) ?_
  · positivity
  · split <;> norm_num
  · split <;> norm_num
  · positivity

theorem analyze_email_confidence (e : List Char) (a : String) :
    (analyze_email e a).confidence_score = (analyze_text e a).confidence_score := by
  unfold analyze_email
  by_cases h : (analyze_text e a).threat_level ≠ "safe"
  · rw [if_pos h]
  · rw [if_neg h]

/-! ## Claims -/

/-- C1: an exception raised inside any scorer is caught by
`analyze_content`/`analyze_file` and converted into the fail-open result
`{safe, 0.0, allowed}` with the failure detail under the `error` metadata
key; it is never propagated (the embedded entry points are total
functions, so non-propagation is inherent, and this theorem pins down the
value returned whenever the dispatched scorer raises). -/
theorem C1_fail_open :
    (∀ (S : Scorers) (ct : String) (c : List Char) (a e : String),
        contentDispatch S ct c a = .error e →
        engine_analyze_content S ct c a = failOpenContent e
          ∧ (engine_analyze_content S ct c a).threat_level = "safe"
          ∧ (engine_analyze_content S ct c a).confidence_score = 0
          ∧ (engine_analyze_content S ct c a).action_taken = "allowed"
          ∧ (engine_analyze_content S ct c a).metadata = [("error", .s e)])
  ∧ (∀ (S : Scorers) (d : List Nat) (ct a e : String),
        fileDispatch S d ct a = .error e →
        engine_analyze_file S d ct a = failOpenFile e
          ∧ (engine_analyze_file S d ct a).threat_level = "safe"
          ∧ (engine_analyze_file S d ct a).confidence_score = 0
          ∧ (engine_analyze_file S d ct a).action_taken = "allowed"
          ∧ (engine_analyze_file S d ct a).metadata = [("error", .s e)]) := by
  constructor
  · intro S ct c a e h
    have heq : engine_analyze_content S ct c a = failOpenContent e := by
      unfold engine_analyze_content
      rw [h]
    exact ⟨heq, by rw [heq]; rfl, by rw [heq]; rfl, by rw [heq]; rfl, by rw [heq]; rfl⟩
  · intro S d ct a e h
    have heq : engine_analyze_file S d ct a = failOpenFile e := by
      unfold engine_analyze_file
      rw [h]
    exact ⟨heq, by rw [heq]; rfl, by rw [heq]; rfl, by rw [heq]; rfl, by rw [heq]; rfl⟩

/-- Witness for C1: with a scorer suite that raises everywhere, both
entry points return the fail-open defaults. -/
theorem C1_fail_open_witness :
    engine_analyze_content boomScorers "message" [] "sms" = failOpenContent "text boom"
  ∧ engine_analyze_file boomScorers [] "application/pdf" "sms" = failOpenFile "generic boom" :=
  ⟨(C1_fail_open.1 boomScorers "message" [] "sms" "text boom" rfl).1,
   (C1_fail_open.2 boomScorers [] "application/pdf" "sms" "generic boom" rfl).1⟩

/-- C2: every scorer produces a confidence score in `[0, 1]`. -/
theorem C2_confidence_bounds :
    (∀ t a, 0 ≤ (analyze_text t a).confidence_score
      ∧ (analyze_text t a).confidence_score ≤ 1)
  ∧ (∀ u a, 0 ≤ (analyze_url u a).confidence_score
      ∧ (analyze_url u a).confidence_score ≤ 1)
  ∧ (∀ p a, 0 ≤ (analyze_phone p a).confidence_score
      ∧ (analyze_phone p a).confidence_score ≤ 1)
  ∧ (∀ e a, 0 ≤ (analyze_email e a).confidence_score
      ∧ (analyze_email e a).confidence_score ≤ 1)
  ∧ (∀ md5 d a, (0 ≤ (analyze_image md5 d a).confidence_score
        ∧ (analyze_image md5 d a).confidence_score ≤ 1)
      ∧ (0 ≤ (analyze_audio md5 d a).confidence_score
        ∧ (analyze_audio md5 d a).confidence_score ≤ 1)
      ∧ (0 ≤ (analyze_video md5 d a).confidence_score
        ∧ (analyze_video md5 d a).confidence_score ≤ 1))
  ∧ (∀ md5 d ct a, 0 ≤ (analyze_generic_file md5 d ct a).confidence_score
      ∧ (analyze_generic_file md5 d ct a).confidence_score ≤ 1) := by
  refine ⟨?_, ?_, ?_, ?_, ?_, ?_⟩
  · intro t a
    exact ⟨pymin_nonneg (textRawScore_nonneg t) (by norm_num), pymin_le_right _ _⟩
  · intro u a
    exact ⟨pymin_nonneg (urlRawScore_nonneg u) (by norm_num), pymin_le_right _ _⟩
  · intro p a
    exact ⟨pymin_nonneg (phoneRawScore_nonneg _) (by norm_num), pymin_le_right _ _⟩
  · intro e a
    rw [analyze_email_confidence]
    exact ⟨pymin_nonneg (textRawScore_nonneg e) (by norm_num), pymin_le_right _ _⟩
  · intro md5 d a
    refine ⟨⟨?_, ?_⟩, ⟨?_, ?_⟩, ⟨?_, ?_⟩⟩
    · unfold analyze_image; split <;> norm_num
    · unfold analyze_image; split <;> norm_num
    · simp [analyze_audio]
    · simp [analyze_audio]
    · simp [analyze_video]
    · simp [analyze_video]
  · intro md5 d ct a
    constructor <;> unfold analyze_generic_file <;> split <;> norm_num

/-- C4: when the per-(user, app) setting is missing or disabled, the
`/analyze` endpoint answers `{safe, 0.0, allowed}` with the
"Protection not enabled" message and leaves the stores untouched —
in particular no `ProtectionLog` row is appended. -/
theorem C4_app_gate (engine : String → List Char → String → AnalysisResult)
    (hashF : List Char → String) (now : ℤ) (db : DB) (user : Nat)
    (ct : String) (content : List Char) (app : String)
    (h : db.settings.find? (settingFor user app) = none
       ∨ ∃ s, db.settings.find? (settingFor user app) = some s ∧ s.is_enabled = false) :
    api_analyze_content engine hashF now db user ct content app = (gateResponse app, db)
  ∧ gateResponse app =
      { threat_level := "safe", confidence_score := 0, action_taken := "allowed",
        categories := [], message := "Protection not enabled for " ++ app,
        meta := [] } := by
  refine ⟨?_, rfl⟩
  unfold api_analyze_content
  rcases h with h | ⟨s, hs, he⟩
  · rw [h]
  · rw [hs]
    simp [he]

/-- Witness for C4: a disabled `sms` setting short-circuits the call and
leaves the store (including its one log row) unchanged. -/
theorem C4_app_gate_witness :
    api_analyze_content nullEngine constHash 0 disabledDb 1 "message"
      "hello".data "sms" = (gateResponse "sms", disabledDb) :=
  (C4_app_gate nullEngine constHash 0 disabledDb 1 "message" "hello".data "sms"
    (Or.inr ⟨sampleSetting false, rfl, rfl⟩)).1

unseal Rat.mul Rat.inv Rat.add in
set_option maxRecDepth 100000 in
/-- C8: the phishing scenario text, analyzed as `message` content,
is categorized as phishing with confidence ≥ 0.9 and blocked. -/
theorem C8_phishing_scenario (md5 : List Nat → String) :
    engine_analyze_content (realScorers md5) "message" c8_text "email"
        = analyze_text c8_text "email"
  ∧ "phishing" ∈ (analyze_text c8_text "email").categories
  ∧ (analyze_text c8_text "email").confidence_score ≥ 9/10
  ∧ (analyze_text c8_text "email").threat_level = "blocked" := by
  refine ⟨rfl, ?_, ?_, ?_⟩ <;> decide

theorem countP_spam (c : List Char) :
    spam_phone_patterns.countP (fun p => p == c)
      = if c ∈ spam_phone_patterns then 1 else 0 := by
  by_cases e1 : c = "+1234567890".data
  · subst e1; decide
  by_cases e2 : c = "+9876543210".data
  · subst e2; decide
  by_cases e3 : c = "0000000000".data
  · subst e3; decide
  by_cases e4 : c = "1111111111".data
  · subst e4; decide
  have hnm : c ∉ spam_phone_patterns := by
    simp [spam_phone_patterns, e1, e2, e3, e4]
  rw [if_neg hnm]
  have ne1 : "+1234567890".data ≠ c := fun h => e1 h.symm
  have ne2 : "+9876543210".data ≠ c := fun h => e2 h.symm
  have ne3 : "0000000000".data ≠ c := fun h => e3 h.symm
  have ne4 : "1111111111".data ≠ c := fun h => e4 h.symm
  simp [spam_phone_patterns, List.countP_cons, beq_iff_eq, ne1, ne2, ne3, ne4]

theorem premium_excl (c x y : List Char) (hx : x ∈ premium_patterns)
    (hy : y ∈ premium_patterns) (hxc : x.isPrefixOf c) (hyc : y.isPrefixOf c) :
    x = y := by
  rw [List.isPrefixOf_iff_prefix] at hxc hyc
  have htot := List.prefix_or_prefix_of_prefix hxc hyc
  have hb : (x.isPrefixOf y || y.isPrefixOf x) = true := by
    rcases htot with h | h
    · rw [← List.isPrefixOf_iff_prefix] at h
      simp [h]
    · rw [← List.isPrefixOf_iff_prefix] at h
      simp [h]
  fin_cases hx <;> fin_cases hy <;> first
    | rfl
    | simp at hb

theorem countP_premium (c : List Char) :
    premium_patterns.countP (fun p => p.isPrefixOf c)
      = if premium_patterns.any (fun p => p.isPrefixOf c) then 1 else 0 := by
  by_cases h1 : "+1900".data.isPrefixOf c <;>
    by_cases h2 : "+1976".data.isPrefixOf c <;>
      by_cases h3 : "+44871".data.isPrefixOf c
  · exact absurd (premium_excl c _ _ (by decide) (by decide) h1 h2) (by decide)
  · exact absurd (premium_excl c _ _ (by decide) (by decide) h1 h2) (by decide)
  · exact absurd (premium_excl c _ _ (by decide) (by decide) h1 h3) (by decide)
  · simp [premium_patterns, h1, h2, h3]
  · exact absurd (premium_excl c _ _ (by decide) (by decide) h2 h3) (by decide)
  · simp [premium_patterns, h1, h2, h3]
  · simp [premium_patterns, h1, h2, h3]
  · simp [premium_patterns, h1, h2, h3]

theorem phoneRaw_if_form (c : List Char) :
    phoneRawScore c =
      (if c ∈ spam_phone_patterns then 8/10 else 0)
        + (if c.length < 10 then 4/10 else 0)
        + (if (c.filter (fun x => !(x == '+'))).dedup.length ≤ 2 then 6/10 else 0)
        + (if premium_patterns.any (fun p => p.isPrefixOf c) then 5/10 else 0) := by
  unfold phoneRawScore
  rw [countP_spam, countP_premium]
  simp only [apply_ite (Nat.cast : Nat → ℚ), Nat.cast_one, Nat.cast_zero, mul_boole]

theorem analyze_phone_fields (phone : List Char) (app : String) :
    (analyze_phone phone app).confidence_score
        = pymin (phoneRawScore (cleanPhoneOf phone)) 1
  ∧ (analyze_phone phone app).threat_level =
      (if pymin (phoneRawScore (cleanPhoneOf phone)) 1 ≥ 8/10 then "blocked"
       else if pymin (phoneRawScore (cleanPhoneOf phone)) 1 ≥ 4/10 then "suspicious"
       else "safe") := by
  constructor
  · rfl
  · unfold analyze_phone
    dsimp only
    split_ifs <;> rfl

unseal Rat.mul Rat.inv Rat.add in
set_option maxRecDepth 100000 in
/-- C5 counterexample: the in-text URL/phone scorers are not the
standalone scorers.  The embedded URL `http://bit.ly/x` contributes 0.3 to
a text's confidence while the standalone URL scorer assigns it 0.4; the
embedded phone `+1234567890` contributes 0.4 while the standalone phone
scorer assigns it 0.8. -/
theorem C5_counterexample :
    analyze_url_in_text "http://bit.ly/x".data
        ≠ (analyze_url "http://bit.ly/x".data "sms").confidence_score
  ∧ findUrls "http://bit.ly/x".data = ["http://bit.ly/x".data]
  ∧ (analyze_text "http://bit.ly/x".data "sms").confidence_score = 3/10
  ∧ (analyze_url "http://bit.ly/x".data "sms").confidence_score = 4/10
  ∧ analyze_phone_in_text "+1234567890".data
        ≠ (analyze_phone "+1234567890".data "sms").confidence_score
  ∧ findPhones "+1234567890".data = ["+1234567890".data]
  ∧ (analyze_text "+1234567890".data "sms").confidence_score = 4/10
  ∧ (analyze_phone "+1234567890".data "sms").confidence_score = 8/10 := by
  refine ⟨?_, ?_, ?_, ?_, ?_, ?_, ?_, ?_⟩ <;> decide

/-- C5 amended: each embedded URL contributes exactly the score of the
lightweight in-text URL helper (0.3 per shortener domain, capped at 0.5)
and each embedded phone exactly the score of the in-text phone helper
(0.4 on a known spam-pattern match, else 0); these helpers, not the
standalone scorers, are what text analysis runs on embedded content. -/
theorem C5_amended (text : List Char) (app : String) :
    (analyze_text text app).confidence_score = pymin (textRawScore text) 1
  ∧ textRawScore text =
      (threat_patterns.map (fun cp =>
          categoryContribution cp.2 (text.map Char.toLower))).sum
        + pymin ((1/10) * urgencyCount (text.map Char.toLower)) (3/10)
        + ((findUrls text).map analyze_url_in_text).sum
        + ((findPhones text).map analyze_phone_in_text).sum
  ∧ (∀ u, analyze_url_in_text u =
      pymin ((3/10) * (suspicious_domains.countP
        (fun d => containsSeq d.data (u.map Char.toLower)))) (5/10))
  ∧ (∀ p, analyze_phone_in_text p =
      if cleanPhoneOf p ∈ spam_phone_patterns then 4/10 else 0) := by
  refine ⟨rfl, rfl, fun u => rfl, fun p => ?_⟩
  unfold analyze_phone_in_text
  by_cases h : cleanPhoneOf p ∈ spam_phone_patterns
  · rw [if_pos (List.any_eq_true.mpr ⟨_, h, by simp⟩), if_pos h]
  · rw [if_neg h, if_neg ?_]
    intro hc
    obtain ⟨x, hx, hb⟩ := List.any_eq_true.mp hc
    exact h (beq_iff_eq.mp hb ▸ hx)

/-- C6: for each threat category, every matching pattern adds 0.3 to the
category subtotal, and the category's contribution to the total
confidence never exceeds 0.8, however many patterns match (in particular
a text matching many phishing patterns gets at most 0.8 from phishing). -/
theorem C6_category_cap (text : List Char) (cat : String) (pats : List String)
    (_hmem : (cat, pats) ∈ threat_patterns) :
    categoryScore pats (text.map Char.toLower)
        = (3/10) * (pats.countP (fun p => reSearch p (text.map Char.toLower)))
      ∧ categoryContribution pats (text.map Char.toLower) ≤ 8/10
      ∧ textRawScore text =
          (threat_patterns.map (fun cp =>
              categoryContribution cp.2 (text.map Char.toLower))).sum
            + pymin ((1/10) * urgencyCount (text.map Char.toLower)) (3/10)
            + ((findUrls text).map analyze_url_in_text).sum
            + ((findPhones text).map analyze_phone_in_text).sum :=
  ⟨rfl, categoryContribution_le _ _, rfl⟩

/-- Witness for C6 at the phishing category and the scenario text. -/
theorem C6_category_cap_witness :
    categoryScore phishing_patterns (c8_text.map Char.toLower)
        = (3/10) * (phishing_patterns.countP
            (fun p => reSearch p (c8_text.map Char.toLower)))
      ∧ categoryContribution phishing_patterns (c8_text.map Char.toLower) ≤ 8/10
      ∧ textRawScore c8_text =
          (threat_patterns.map (fun cp =>
              categoryContribution cp.2 (c8_text.map Char.toLower))).sum
            + pymin ((1/10) * urgencyCount (c8_text.map Char.toLower)) (3/10)
            + ((findUrls c8_text).map analyze_url_in_text).sum
            + ((findPhones c8_text).map analyze_phone_in_text).sum :=
  C6_category_cap c8_text "phishing" phishing_patterns (by decide)

unseal Rat.mul Rat.inv Rat.add in
set_option maxRecDepth 100000 in
/-- C7: the phone scorer normalizes to digits and `+` characters, adds
0.8 for a known spam pattern, 0.4 for length < 10, 0.6 for at most two
distinct digits, 0.5 for a premium-rate prefix, clamps at 1, and maps the
score to a level by the thresholds 0.8 (blocked) and 0.4 (suspicious);
the spec's `+1234567890` example scores ≥ 0.8 and is blocked. -/
theorem C7_phone_scorer (phone : List Char) (app : String) :
    cleanPhoneOf phone = phone.filter (fun c => c.isDigit || c == '+')
  ∧ (analyze_phone phone app).confidence_score =
      pymin ((if cleanPhoneOf phone ∈ spam_phone_patterns then 8/10 else 0)
        + (if (cleanPhoneOf phone).length < 10 then 4/10 else 0)
        + (if ((cleanPhoneOf phone).filter (fun x => !(x == '+'))).dedup.length ≤ 2
            then 6/10 else 0)
        + (if premium_patterns.any (fun p => p.isPrefixOf (cleanPhoneOf phone))
            then 5/10 else 0)) 1
  ∧ ((analyze_phone phone app).threat_level = "blocked"
        ↔ (analyze_phone phone app).confidence_score ≥ 8/10)
  ∧ ((analyze_phone phone app).threat_level = "suspicious"
        ↔ ((analyze_phone phone app).confidence_score ≥ 4/10
            ∧ (analyze_phone phone app).confidence_score < 8/10))
  ∧ ((analyze_phone phone app).threat_level = "safe"
        ↔ (analyze_phone phone app).confidence_score < 4/10)
  ∧ (analyze_phone "+1234567890".data "phone").confidence_score ≥ 8/10
  ∧ (analyze_phone "+1234567890".data "phone").threat_level = "blocked" := by
  obtain ⟨hc, hl⟩ := analyze_phone_fields phone app
  refine ⟨rfl, ?_, ?_, ?_, ?_, by decide, by decide⟩
  · rw [hc, phoneRaw_if_form]
  · rw [hl, hc]
    by_cases h8 : pymin (phoneRawScore (cleanPhoneOf phone)) 1 ≥ 8/10
    · rw [if_pos h8]
      exact iff_of_true rfl h8
    · rw [if_neg h8]
      by_cases h4 : pymin (phoneRawScore (cleanPhoneOf phone)) 1 ≥ 4/10
      · rw [if_pos h4]
        exact iff_of_false (by decide) h8
      · rw [if_neg h4]
        exact iff_of_false (by decide) h8
  · rw [hl, hc]
    by_cases h8 : pymin (phoneRawScore (cleanPhoneOf phone)) 1 ≥ 8/10
    · rw [if_pos h8]
      exact iff_of_false (by decide) (fun hx => absurd h8 (not_le.mpr hx.2))
    · rw [if_neg h8]
      by_cases h4 : pymin (phoneRawScore (cleanPhoneOf phone)) 1 ≥ 4/10
      · rw [if_pos h4]
        exact iff_of_true rfl ⟨h4, not_le.mp h8⟩
      · rw [if_neg h4]
        exact iff_of_false (by decide) (fun hx => h4 hx.1)
  · rw [hl, hc]
    by_cases h8 : pymin (phoneRawScore (cleanPhoneOf phone)) 1 ≥ 8/10
    · rw [if_pos h8]
      exact iff_of_false (by decide)
        (not_lt.mpr (le_trans (by norm_num) h8))
    · rw [if_neg h8]
      by_cases h4 : pymin (phoneRawScore (cleanPhoneOf phone)) 1 ≥ 4/10
      · rw [if_pos h4]
        exact iff_of_false (by decide) (not_lt.mpr h4)
      · rw [if_neg h4]
        exact iff_of_true rfl (not_le.mp h4)

unseal Rat.mul Rat.inv Rat.add in
set_option maxRecDepth 100000 in
/-- C3 counterexample: the claim omits the app gate.  With protection
toggled off for `sms` but a fresh cached entry present (user 1, same
hash, within 24h), the endpoint returns the gate response, not the stored
assessment (stored: blocked at 0.9; returned: safe at 0). -/
theorem C3_counterexample :
    disabledDb.logs.find? (cacheHit 1 (constHash "hello".data) 0) = some sampleEntry
  ∧ (api_analyze_content nullEngine constHash 0 disabledDb 1 "message"
        "hello".data "sms").1 = gateResponse "sms"
  ∧ (api_analyze_content nullEngine constHash 0 disabledDb 1 "message"
        "hello".data "sms").1.threat_level ≠ sampleEntry.threat_level
  ∧ (api_analyze_content nullEngine constHash 0 disabledDb 1 "message"
        "hello".data "sms").1.confidence_score ≠ sampleEntry.confidence_score := by
  refine ⟨rfl, rfl, by decide, by decide⟩

/-- C3 (amended): provided the (user, app) protection setting exists and
is enabled, a log row with the same user and content hash created within
the past 24 hours makes the endpoint return that stored row's assessment
unchanged (threat level, confidence, action, categories, metadata) with
the stores untouched — for every engine, so no scorer result can affect
the answer; and when no row matches (older than 24h, another user, or a
different hash), the engine runs and a new row is appended. -/
theorem C3_dedup_cache (engine : String → List Char → String → AnalysisResult)
    (hashF : List Char → String) (now : ℤ) (db : DB) (user : Nat)
    (ct : String) (content : List Char) (app : String) (s : AppSettingRec)
    (hs : db.settings.find? (settingFor user app) = some s)
    (he : s.is_enabled = true) :
    (∀ L, db.logs.find? (cacheHit user (hashF content) now) = some L →
        api_analyze_content engine hashF now db user ct content app
            = (cachedResponse app L, db)
          ∧ (cachedResponse app L).threat_level = L.threat_level
          ∧ (cachedResponse app L).confidence_score = L.confidence_score
          ∧ (cachedResponse app L).action_taken = L.action_taken
          ∧ (cachedResponse app L).categories = L.threat_categories
          ∧ (cachedResponse app L).meta = L.meta)
  ∧ (db.logs.find? (cacheHit user (hashF content) now) = none →
      api_analyze_content engine hashF now db user ct content app
        = (freshResponse (engine ct content app),
           { db with logs := db.logs
              ++ [freshLogEntry user app ct (hashF content)
                    (engine ct content app) now] })) := by
  constructor
  · intro L hL
    refine ⟨?_, rfl, rfl, rfl, rfl, rfl⟩
    unfold api_analyze_content
    rw [hs]
    simp only [he, Bool.not_true, Bool.false_eq_true, if_false]
    rw [hL]
  · intro hnone
    unfold api_analyze_content
    rw [hs]
    simp only [he, Bool.not_true, Bool.false_eq_true, if_false]
    rw [hnone]

/-- Witness for C3: with `sms` enabled and the cached row fresh, the
endpoint answers from the cache and leaves the store unchanged. -/
theorem C3_dedup_cache_witness :
    api_analyze_content nullEngine constHash 0 enabledDb 1 "message"
      "hello".data "sms" = (cachedResponse "sms" sampleEntry, enabledDb) :=
  ((C3_dedup_cache nullEngine constHash 0 enabledDb 1 "message" "hello".data
      "sms" (sampleSetting true) rfl rfl).1 sampleEntry rfl).1

theorem lookup_map_pair {β : Type} (l : List String) (f : String → β)
    (hnd : l.Nodup) (a : String) :
    (l.map (fun x => (x, f x))).lookup a = if a ∈ l then some (f a) else none := by
  induction l with
  | nil => simp
  | cons x xs ih =>
    rcases List.nodup_cons.mp hnd with ⟨hx, hxs⟩
    by_cases hax : a = x
    · subst hax
      simp [List.lookup]
    · have hbeq : (a == x) = false := by simp [hax]
      simp [List.lookup, hbeq, ih hxs, List.mem_cons, hax]

/-- C9: the stats endpoint counts exactly the user's log rows at or after
the window start determined by the period (24h/7d/30d, defaulting to
24h), splits them by threat level, counts the user's distinct enabled
apps, and reports per-app `(protected, blocked)` pairs for every app
appearing in the window. -/
theorem C9_stats (now : ℤ) (db : DB) (user : Nat) (period : String) :
    (get_protection_stats now db user period).total_protected
        = (db.logs.filter (inWindow user (periodStart period now))).length
  ∧ (get_protection_stats now db user period).threats_blocked
        = (db.logs.filter (fun L => inWindow user (periodStart period now) L
            && L.threat_level == "blocked")).length
  ∧ (get_protection_stats now db user period).suspicious_items
        = (db.logs.filter (fun L => inWindow user (periodStart period now) L
            && L.threat_level == "suspicious")).length
  ∧ (get_protection_stats now db user period).apps_protected
        = ((db.settings.filter (fun s => s.user_id == user && s.is_enabled)).map
            (fun s => s.app_name)).toFinset.card
  ∧ (∀ app, ((get_protection_stats now db user period).breakdown).lookup app
        = if app ∈ (db.logs.filter (inWindow user (periodStart period now))).map
              (fun L => L.app_name)
          then some
            (((db.logs.filter (inWindow user (periodStart period now))).filter
                (fun L => L.app_name == app)).length,
             ((db.logs.filter (inWindow user (periodStart period now))).filter
                (fun L => L.app_name == app && L.threat_level == "blocked")).length)
          else none)
  ∧ periodStart "24h" now = now - 24 * 3600
  ∧ periodStart "7d" now = now - 7 * 24 * 3600
  ∧ periodStart "30d" now = now - 30 * 24 * 3600
  ∧ (period ∉ (["24h", "7d", "30d"] : List String) →
      periodStart period now = now - 24 * 3600) := by
  refine ⟨?_, ?_, ?_, ?_, ?_, rfl, rfl, rfl, ?_⟩
  · exact List.countP_eq_length_filter _ _
  · exact List.countP_eq_length_filter _ _
  · exact List.countP_eq_length_filter _ _
  · exact (List.card_toFinset _).symm
  · intro app
    unfold get_protection_stats
    rw [lookup_map_pair _ _ (List.nodup_dedup _) app]
    simp only [List.mem_dedup]
  · intro h
    simp only [List.mem_cons, List.not_mem_nil, or_false, not_or] at h
    obtain ⟨h1, h2, h3⟩ := h
    unfold periodStart
    rw [if_neg h1, if_neg h2, if_neg h3]

/-- Witness for C9: three `sms` rows (one blocked) over a 7-day window
give total 3, blocked 1, breakdown `sms ↦ (3, 1)`; an unrecognized
period falls back to the 24-hour window. -/
theorem C9_stats_witness :
    (get_protection_stats 0 statsDb 1 "7d").total_protected = 3
  ∧ (get_protection_stats 0 statsDb 1 "7d").threats_blocked = 1
  ∧ ((get_protection_stats 0 statsDb 1 "7d").breakdown).lookup "sms" = some (3, 1)
  ∧ periodStart "zzz" 0 = 0 - 24 * 3600 := by
  obtain ⟨h1, h2, _, _, h5, _⟩ := C9_stats 0 statsDb 1 "7d"
  refine ⟨?_, ?_, ?_, ?_⟩
  · rw [h1]; decide
  · rw [h2]; decide
  · rw [h5 "sms"]; decide
  · exact (C9_stats 0 statsDb 1 "zzz").2.2.2.2.2.2.2.2 (by decide)

theorem lookup_dictSet_self (m : List (String × AppSettingOut)) (k : String)
    (v : AppSettingOut) : (dictSet m k v).lookup k = some v := by
  induction m with
  | nil => simp [dictSet, List.lookup]
  | cons kv rest ih =>
    obtain ⟨k', v'⟩ := kv
    unfold dictSet
    by_cases h : k' = k
    · simp [h, List.lookup]
    · have hbeq : (k' == k) = false := beq_eq_false_iff_ne.mpr h
      have hbeq2 : (k == k') = false := beq_eq_false_iff_ne.mpr (Ne.symm h)
      simp [hbeq, List.lookup, hbeq2, ih]

theorem lookup_dictSet_ne (m : List (String × AppSettingOut)) (k : String)
    (v : AppSettingOut) (a : String) (h : a ≠ k) :
    (dictSet m k v).lookup a = m.lookup a := by
  have hak : (a == k) = false := beq_eq_false_iff_ne.mpr h
  induction m with
  | nil => simp [dictSet, List.lookup, hak]
  | cons kv rest ih =>
    obtain ⟨k', v'⟩ := kv
    unfold dictSet
    by_cases hk : k' = k
    · subst hk
      simp [List.lookup, hak]
    · have hbeq : (k' == k) = false := beq_eq_false_iff_ne.mpr hk
      simp only [hbeq, Bool.false_eq_true, if_false]
      by_cases ha : a = k'
      · subst ha
        simp [List.lookup]
      · have hb2 : (a == k') = false := beq_eq_false_iff_ne.mpr ha
        simp [List.lookup, hb2, ih]

theorem lookup_fold_settings (l : List AppSettingRec)
    (m : List (String × AppSettingOut)) (a : String) :
    (l.foldl (fun m s => dictSet m s.app_name (outOfSetting s)) m).lookup a
      = match l.reverse.find? (fun s => s.app_name == a) with
        | some s => some (outOfSetting s)
        | none => m.lookup a := by
  induction l generalizing m with
  | nil => rfl
  | cons s l ih =>
    rw [List.foldl_cons, ih, List.reverse_cons, List.find?_append]
    cases hfind : l.reverse.find? (fun s => s.app_name == a) with
    | some t => rfl
    | none =>
      simp only [Option.none_or]
      cases hb : (s.app_name == a) with
      | true =>
        have h : s.app_name = a := beq_iff_eq.mp hb
        simp only [List.find?, hb]
        rw [← h]
        exact lookup_dictSet_self m s.app_name (outOfSetting s)
      | false =>
        have h : a ≠ s.app_name := by
          intro hh
          rw [hh.symm] at hb
          simp at hb
        simp only [List.find?, hb]
        exact lookup_dictSet_ne m s.app_name (outOfSetting s) a h

/-- C10: the `/apps` mapping contains each of the five default apps; an
app with no stored setting for the user reports the defaults
`{enabled=false, medium, auto_block, notifications}`, and a stored
setting (the most recently applied one) overrides its default entry. -/
theorem C10_app_settings (db : DB) (user : Nat) (app : String)
    (hm : app ∈ default_apps) :
    (get_app_settings db user).lookup app
      = some ((((db.settings.filter (fun s => s.user_id == user)).reverse.find?
          (fun s => s.app_name == app))).elim defaultAppOut outOfSetting) := by
  unfold get_app_settings
  rw [lookup_fold_settings]
  cases hfind : (db.settings.filter (fun s => s.user_id == user)).reverse.find?
      (fun s => s.app_name == app) with
  | some t => rfl
  | none =>
    simp only [Option.elim]
    fin_cases hm <;> rfl

/-- Witness for C10: with one stored enabled `sms` setting, `sms` reports
the stored values and `whatsapp` reports the defaults. -/
theorem C10_app_settings_witness :
    (get_app_settings enabledDb 1).lookup "sms"
        = some (outOfSetting (sampleSetting true))
  ∧ (get_app_settings enabledDb 1).lookup "whatsapp" = some defaultAppOut := by
  constructor
  · rw [C10_app_settings enabledDb 1 "sms" (by decide)]
    rfl
  · rw [C10_app_settings enabledDb 1 "whatsapp" (by decide)]
    rfl

end Calrio
